import Mathlib

/-!
Shallow embedding of the budget-buddy backend (src/app.py): a Flask app
exposing `GET /check` and `POST /api/execute`, forwarding a user query to a
generative-AI client with a fixed persona prompt and web-search grounding.

Modelling conventions:
  * JSON values are the inductive `Json`; Python truthiness is `Json.truthy`.
  * The remote AI call (`model.generate_content(...).text`) is an oracle
    `Upstream : String → String → Except PyError String` taking the system
    instruction and the query and returning the extracted text or an error.
  * Python exceptions are `PyError`; `google.generativeai.errors.APIError`
    is the constructor `PyError.apiError`, which the handler's
    `except APIError` clause catches; every constructor is caught by
    `except Exception`.
  * Handlers are instrumented with traces: `execCalls` records the arguments
    of every call to `execute_budget_buddy`, `netCalls` records every
    outbound `generate_content` call (system instruction, query).  The
    source code contains no other calls to either, so an empty trace means
    the call never happens.
  * A request body is `Option Json`: `none` is `request.get_json(silent=True)`
    returning `None` (absent or unparseable body).
-/

namespace BudgetBuddy

/-- JSON values, as produced by Flask's `request.get_json`. -/
inductive Json where
  | null
  | bool (b : Bool)
  | num (n : Int)
  | str (s : String)
  | arr (elems : List Json)
  | obj (fields : List (String × Json))

/-- Python truthiness of a parsed JSON value (`if not data`, `if not query`). -/
def Json.truthy : Json → Bool
  | .null => false
  | .bool b => b
  | .num n => n != 0
  | .str s => s != ""
  | .arr elems => !elems.isEmpty
  | .obj fields => !fields.isEmpty

/-- Python exceptions relevant to the handlers.  `apiError` is the
upstream-API-specific `google.generativeai.errors.APIError`; the others are
generic exceptions (all of them subclasses of `Exception`). -/
inductive PyError where
  | apiError (detail : String)
  | attributeError (detail : String)
  | exception (detail : String)
deriving DecidableEq

/-- The process-wide AI client handle (`genai.GenerativeModel(MODEL_TO_USE)`). -/
structure Handle where
  modelName : String
deriving DecidableEq

/-- Hardcoded model name (src/app.py line 13). -/
def MODEL_TO_USE : String := "gemini-2.5-flash"

/-- The behaviour of the remote call `model.generate_content(query,
system_instruction=..., tools=...)` followed by `.text` extraction:
given the system instruction and the query, returns the extracted text or
raises. -/
def Upstream : Type := String → String → Except PyError String

/-- Startup (src/app.py lines 10-31): read `GOOGLE_API_KEY` from the
environment; if absent or empty, the model is `None`; otherwise configure
and construct the model, and on any construction failure fall back to
`None`.  `construct` is the oracle for `genai.configure` +
`genai.GenerativeModel`, applied to the key. -/
def initModel (apiKey : Option String) (construct : String → Except PyError Unit) :
    Option Handle :=
  match apiKey with
  | none => none
  | some k =>
    if k = "" then none
    else
      match construct k with
      | .ok _ => some ⟨MODEL_TO_USE⟩
      | .error _ => none

/-- Python `str.strip()`: the string with leading and trailing whitespace
removed.  Defined on the character list so that it reduces on concrete
strings. -/
def pyStrip (s : String) : String :=
  ⟨((s.data.dropWhile Char.isWhitespace).reverse.dropWhile
      Char.isWhitespace).reverse⟩

/-- The fixed persona prompt (src/app.py lines 51-58). -/
def system_prompt : String :=
  "You are Budget Buddy — the voice of financial reason. " ++
  "Your job is to help the user make smarter spending decisions. " ++
  "Suggest at least one cheaper or free alternative found via Google Search. " ++
  "Briefly explain why your choice is smarter. " ++
  "Keep it clever, casual, and concise — no lectures. " ++
  "If it’s already a good deal, say so with a friendly remark."

/-- Result of `execute_budget_buddy`: the returned text or raised exception,
plus the trace of outbound `generate_content` calls made. -/
structure ExecOutcome where
  result : Except PyError String
  netCalls : List (String × String)

/-- `execute_budget_buddy` (src/app.py lines 42-66): raise locally if the
model is not initialized; otherwise forward the query with the persona
prompt (and search grounding) to the client and return the response text,
propagating any error unchanged. -/
def execute_budget_buddy (model : Option Handle) (upstream : Upstream)
    (query : String) : ExecOutcome :=
  match model with
  | none =>
    ⟨.error (.exception
        "AI model failed to initialize due to missing or invalid API key."),
      []⟩
  | some _ => ⟨upstream system_prompt query, [(system_prompt, query)]⟩

/-- An HTTP response: status code and JSON body (field order as jsonify'd). -/
structure HttpResponse where
  status : Nat
  body : Json

/-- What a handler invocation does: return a response, or let an exception
escape the handler. -/
inductive HandlerResult where
  | response (r : HttpResponse)
  | escaped (e : PyError)

/-- Instrumented handler outcome: the result plus the trace of calls to
`execute_budget_buddy` (their `query` arguments) and of outbound
`generate_content` calls. -/
structure HandlerOutcome where
  outcome : HandlerResult
  execCalls : List String
  netCalls : List (String × String)

/-- Body of the 503 response when the model is not initialized. -/
def bodyNotInitialized : Json :=
  .obj [("error", .str "AI service not initialized. Check API key configuration.")]

/-- Body of the 400 response for an absent/unparseable/falsy JSON payload. -/
def bodyInvalidJson : Json :=
  .obj [("error", .str "Invalid or missing JSON payload.")]

/-- Body of the 400 response for a missing/empty/non-string `query`. -/
def bodyMissingQuery : Json :=
  .obj [("error", .str "Missing or empty \"query\" field in the request.")]

/-- Body of the 500 response for an unexpected internal error. -/
def bodyInternalError : Json :=
  .obj [("error", .str "An unexpected internal server error occurred.")]

/-- Body of the 503 response when the upstream API raised `APIError`. -/
def bodyApiError (detail : String) : Json :=
  .obj [("error", .str ("AI Service Unavailable or request error: " ++ detail))]

/-- Body of the 200 success response. -/
def bodySuccess (result : String) : Json :=
  .obj [("success", .bool true), ("result", .str result)]

/-- `GET /check` handler (src/app.py lines 70-87): 200/ok when the model is
initialized, 503/error otherwise; always reports the fixed model name.
The second component is the (always empty) trace of `execute_budget_buddy`
calls: the handler's source contains none. -/
def check (model : Option Handle) : HttpResponse × List String :=
  if model.isNone then
    (⟨503, .obj [("status", .str "error"),
        ("message", .str "backend is running, but AI model failed to initialize."),
        ("model", .str MODEL_TO_USE)]⟩, [])
  else
    (⟨200, .obj [("status", .str "ok"),
        ("message", .str "backend is running"),
        ("model", .str MODEL_TO_USE)]⟩, [])

/-- `POST /api/execute` handler (src/app.py lines 91-120).
Mirrors the source line by line:
  * `if not model` → 503 not-initialized;
  * `data = request.get_json(silent=True)`; `if not data` → 400 invalid
    payload (note: this catches the empty object `{}` and every other falsy
    parse, including `null`);
  * `data.get('query')` — on a truthy non-object this raises
    `AttributeError`, which is outside the `try` and escapes the handler;
  * `if not query or not isinstance(query, str) or not query.strip()` →
    400 missing query (for a string `s` the three tests collapse to
    `pyStrip s = ""`, since an empty string also strips to empty);
  * otherwise call `execute_budget_buddy(query)` inside `try`, mapping
    success to 200, `APIError` to 503 with the error detail, and any other
    exception to a generic 500. -/
def execute (model : Option Handle) (upstream : Upstream) (body : Option Json) :
    HandlerOutcome :=
  match model with
  | none => ⟨.response ⟨503, bodyNotInitialized⟩, [], []⟩
  | some m =>
    match body with
    | none => ⟨.response ⟨400, bodyInvalidJson⟩, [], []⟩
    | some data =>
      if data.truthy = false then ⟨.response ⟨400, bodyInvalidJson⟩, [], []⟩
      else
        match data with
        | .obj fields =>
          match fields.lookup "query" with
          | some (Json.str s) =>
            if pyStrip s = "" then ⟨.response ⟨400, bodyMissingQuery⟩, [], []⟩
            else
              let r := execute_budget_buddy (some m) upstream s
              match r.result with
              | .ok t => ⟨.response ⟨200, bodySuccess t⟩, [s], r.netCalls⟩
              | .error (.apiError d) =>
                ⟨.response ⟨503, bodyApiError d⟩, [s], r.netCalls⟩
              | .error _ =>
                ⟨.response ⟨500, bodyInternalError⟩, [s], r.netCalls⟩
          | _ => ⟨.response ⟨400, bodyMissingQuery⟩, [], []⟩
        | _ =>
          ⟨.escaped (.attributeError "object has no attribute get"), [], []⟩

/-! ## Helper lemmas -/

/-- A JSON object in which a field lookup succeeds is truthy (non-empty). -/
theorem truthy_of_lookup {fields : List (String × Json)} {v : Json}
    (h : fields.lookup "query" = some v) : (Json.obj fields).truthy = true := by
  cases fields with
  | nil => simp [List.lookup] at h
  | cons p l => simp [Json.truthy]

/-- Reduction of `execute` on the valid-query path: with an initialized
model and a JSON object whose `query` field is a string that is non-empty
after stripping, the handler calls the executor on the original string and
maps the upstream outcome to 200 / 503 / 500. -/
theorem execute_valid_query (m : Handle) (up : Upstream)
    {fields : List (String × Json)} {s : String}
    (hq : fields.lookup "query" = some (Json.str s)) (hs : pyStrip s ≠ "") :
    execute (some m) up (some (.obj fields)) =
      match up system_prompt s with
      | .ok t => ⟨.response ⟨200, bodySuccess t⟩, [s], [(system_prompt, s)]⟩
      | .error (.apiError d) =>
        ⟨.response ⟨503, bodyApiError d⟩, [s], [(system_prompt, s)]⟩
      | .error _ =>
        ⟨.response ⟨500, bodyInternalError⟩, [s], [(system_prompt, s)]⟩ := by
  have htr := truthy_of_lookup hq
  rcases hres : up system_prompt s with e | t
  · cases e <;> simp [execute, execute_budget_buddy, htr, hq, hs, hres]
  · simp [execute, execute_budget_buddy, htr, hq, hs, hres]

/-! ## Claim theorems -/

/-- C1: with a usable handle, a JSON object body whose `query` field is a
string with non-whitespace content, and a succeeding upstream call, the
handler returns HTTP 200 with body `{success: true, result: t}` where `t`
is exactly the text the upstream call produced. -/
theorem c1_success_verbatim (m : Handle) (up : Upstream)
    (fields : List (String × Json)) (s t : String)
    (hq : fields.lookup "query" = some (Json.str s)) (hs : pyStrip s ≠ "")
    (hup : up system_prompt s = .ok t) :
    (execute (some m) up (some (.obj fields))).outcome =
      .response ⟨200, bodySuccess t⟩ := by
  rw [execute_valid_query m up hq hs, hup]

/-- Witness for C1 at a concrete request and upstream oracle. -/
theorem c1_success_verbatim_witness :
    (execute (some ⟨MODEL_TO_USE⟩) (fun _ _ => .ok "Buy the cheaper mat.")
        (some (.obj [("query", .str "Should I buy a yoga mat?")]))).outcome =
      .response ⟨200, bodySuccess "Buy the cheaper mat."⟩ :=
  c1_success_verbatim ⟨MODEL_TO_USE⟩ _ _ "Should I buy a yoga mat?" _
    rfl (by decide) rfl

/-- C3: with an uninitialized handle, `POST /api/execute` returns HTTP 503
with the fixed not-initialized body, whatever the request body is, and the
Query Executor is never invoked (empty `execCalls` trace). -/
theorem c3_uninitialized_503 (up : Upstream) (body : Option Json) :
    execute none up body = ⟨.response ⟨503, bodyNotInitialized⟩, [], []⟩ := rfl

/-- C4: `GET /check` returns 200/ok when the handle is usable and 503/error
otherwise, always reporting the fixed model name, and never invokes the
Query Executor (empty trace in both cases). -/
theorem c4_check_contract (model : Option Handle) :
    check model =
      (⟨if model.isSome then 200 else 503,
        .obj [("status", .str (if model.isSome then "ok" else "error")),
          ("message", .str (if model.isSome then "backend is running"
            else "backend is running, but AI model failed to initialize.")),
          ("model", .str MODEL_TO_USE)]⟩, []) := by
  cases model <;> rfl

/-- C7: the Query Executor fails locally (no outbound call: empty
`netCalls`) with the model-not-initialized exception when the handle is
absent, and otherwise forwards exactly one call and returns the upstream
outcome unchanged, error or not. -/
theorem c7_executor_precondition_and_propagation (up : Upstream) (q : String)
    (m : Handle) :
    execute_budget_buddy none up q =
      ⟨.error (.exception
          "AI model failed to initialize due to missing or invalid API key."),
        []⟩ ∧
    execute_budget_buddy (some m) up q =
      ⟨up system_prompt q, [(system_prompt, q)]⟩ :=
  ⟨rfl, rfl⟩

/-- C2: when the upstream call raises, `APIError` maps to HTTP 503 with a
message containing the upstream error detail, and any other exception maps
to HTTP 500 with the fixed generic body `bodyInternalError`, a constant
independent of the exception (so no exception detail reaches the
response). -/
theorem c2_upstream_error_mapping (m : Handle) (up : Upstream)
    (fields : List (String × Json)) (s : String) (e : PyError)
    (hq : fields.lookup "query" = some (Json.str s)) (hs : pyStrip s ≠ "")
    (hup : up system_prompt s = .error e) :
    (∀ d, e = .apiError d →
      ∃ pre post, (execute (some m) up (some (.obj fields))).outcome =
        .response ⟨503, .obj [("error", .str (pre ++ d ++ post))]⟩) ∧
    ((∀ d, e ≠ .apiError d) →
      (execute (some m) up (some (.obj fields))).outcome =
        .response ⟨500, bodyInternalError⟩) := by
  rw [execute_valid_query m up hq hs, hup]
  constructor
  · rintro d rfl
    exact ⟨"AI Service Unavailable or request error: ", "",
      by simp [bodyApiError]⟩
  · intro hne
    cases e with
    | apiError d => exact absurd rfl (hne d)
    | attributeError d => rfl
    | exception d => rfl

/-- Witness for C2, applied once to an upstream `APIError` and once to a
generic exception. -/
theorem c2_upstream_error_mapping_witness :
    (∃ pre post,
      (execute (some ⟨MODEL_TO_USE⟩) (fun _ _ => .error (.apiError "quota hit"))
          (some (.obj [("query", .str "q")]))).outcome =
        .response ⟨503, .obj [("error", .str (pre ++ "quota hit" ++ post))]⟩) ∧
    (execute (some ⟨MODEL_TO_USE⟩) (fun _ _ => .error (.exception "secret detail"))
        (some (.obj [("query", .str "q")]))).outcome =
      .response ⟨500, bodyInternalError⟩ :=
  ⟨(c2_upstream_error_mapping ⟨MODEL_TO_USE⟩
      (fun _ _ => .error (.apiError "quota hit")) [("query", .str "q")] "q"
      (.apiError "quota hit") rfl (by decide) rfl).1 "quota hit" rfl,
    (c2_upstream_error_mapping ⟨MODEL_TO_USE⟩
      (fun _ _ => .error (.exception "secret detail")) [("query", .str "q")] "q"
      (.exception "secret detail") rfl (by decide) rfl).2
      (fun d h => PyError.noConfusion h)⟩

/-- Counterexample to C5 as stated: the empty JSON object `{}` has a
missing `query` field, yet the handler does not answer with the
missing-query body (it answers 400 with the invalid-payload body, because
`if not data` fires on the falsy empty dict before `query` is examined). -/
theorem c5_counterexample_empty_object :
    (execute (some ⟨MODEL_TO_USE⟩) (fun _ _ => .ok "unused5")
        (some (.obj []))).outcome ≠
      .response ⟨400, bodyMissingQuery⟩ := by
  have he : (execute (some ⟨MODEL_TO_USE⟩) (fun _ _ => .ok "unused5")
      (some (.obj []))).outcome = .response ⟨400, bodyInvalidJson⟩ := rfl
  rw [he]
  intro h
  simp [bodyInvalidJson, bodyMissingQuery] at h

/-- C5 (amended): for a usable handle and a JSON object body with at least
one field, if `query` is missing, a non-string, or a string that is empty
or whitespace-only, the handler returns 400 with the missing-query body and
never invokes the Query Executor; the empty object `{}` instead yields 400
with the invalid-payload body. -/
theorem c5_amended_missing_query_400 (m : Handle) (up : Upstream)
    (fields : List (String × Json)) (hne : fields ≠ [])
    (hq : match fields.lookup "query" with
      | some (Json.str s) => pyStrip s = ""
      | some _ => True
      | none => True) :
    execute (some m) up (some (.obj fields)) =
      ⟨.response ⟨400, bodyMissingQuery⟩, [], []⟩ := by
  have htr : (Json.obj fields).truthy = true := by
    cases fields with
    | nil => exact absurd rfl hne
    | cons p l => simp [Json.truthy]
  rcases hl : fields.lookup "query" with _ | v
  · simp [execute, htr, hl]
  · rw [hl] at hq
    cases v <;> simp_all [execute, htr, hl]

/-- Witness for C5 (amended) at the whitespace-only query `"   "`. -/
theorem c5_amended_missing_query_400_witness :
    execute (some ⟨MODEL_TO_USE⟩) (fun _ _ => .ok "unused5w")
        (some (.obj [("query", .str "   ")])) =
      ⟨.response ⟨400, bodyMissingQuery⟩, [], []⟩ :=
  c5_amended_missing_query_400 ⟨MODEL_TO_USE⟩ _ _ (by simp) (by exact rfl)

/-- Counterexample to C6 as stated: for the body `{}` the handler's
response body is not the missing-query error. -/
theorem c6_counterexample_empty_object :
    (execute (some ⟨MODEL_TO_USE⟩) (fun _ _ => .ok "unused6")
        (some (.obj []))).outcome ≠
      .response ⟨400, bodyMissingQuery⟩ := by
  have he : (execute (some ⟨MODEL_TO_USE⟩) (fun _ _ => .ok "unused6")
      (some (.obj []))).outcome = .response ⟨400, bodyInvalidJson⟩ := rfl
  rw [he]
  intro h
  simp [bodyInvalidJson, bodyMissingQuery] at h

/-- C6 (amended): with a usable handle, the body `{}` (an empty JSON
object, which is falsy in Python) returns HTTP 400 with body
`{error: "Invalid or missing JSON payload."}`, and the Query Executor is
never invoked. -/
theorem c6_amended_empty_object_invalid_payload (m : Handle) (up : Upstream) :
    execute (some m) up (some (.obj [])) =
      ⟨.response ⟨400, bodyInvalidJson⟩, [], []⟩ := rfl

/-- Counterexample to C8 as stated: a valid JSON body that is a non-empty
array makes `data.get('query')` raise `AttributeError` outside the `try`
block, so the handler does not return a response — the exception escapes. -/
theorem c8_counterexample_array_body :
    ¬ ∃ r, (execute (some ⟨MODEL_TO_USE⟩) (fun _ _ => .ok "unused8")
        (some (.arr [.num 1]))).outcome = HandlerResult.response r := by
  rintro ⟨r, h⟩
  have he : (execute (some ⟨MODEL_TO_USE⟩) (fun _ _ => .ok "unused8")
      (some (.arr [.num 1]))).outcome =
      .escaped (.attributeError "object has no attribute get") := rfl
  rw [he] at h
  exact HandlerResult.noConfusion h

/-- C8 (amended): for request bodies that are missing/unparseable, parse to
a falsy value, or parse to a JSON object, the handler always terminates
with one of the specified responses (status 200, 400, 500 or 503); truthy
non-object bodies are excluded, since there `AttributeError` escapes. -/
theorem c8_amended_handler_boundary (model : Option Handle) (up : Upstream)
    (body : Option Json)
    (hb : ∀ data, body = some data →
      data.truthy = false ∨ ∃ fields, data = Json.obj fields) :
    ∃ r, (execute model up body).outcome = .response r ∧
      (r.status = 200 ∨ r.status = 400 ∨ r.status = 500 ∨ r.status = 503) := by
  cases model with
  | none => exact ⟨⟨503, bodyNotInitialized⟩, rfl, by simp⟩
  | some m =>
    cases body with
    | none => exact ⟨⟨400, bodyInvalidJson⟩, rfl, by simp⟩
    | some data =>
      rcases hb data rfl with hf | ⟨fields, rfl⟩
      · exact ⟨⟨400, bodyInvalidJson⟩, by simp [execute, hf], by simp⟩
      · cases fields with
        | nil => exact ⟨⟨400, bodyInvalidJson⟩, rfl, by simp⟩
        | cons p l =>
          have htr : (Json.obj (p :: l)).truthy = true := by simp [Json.truthy]
          rcases hl : (p :: l).lookup "query" with _ | v
          · exact ⟨⟨400, bodyMissingQuery⟩, by simp [execute, htr, hl], by simp⟩
          · cases v with
            | str s =>
              by_cases hstrip : pyStrip s = ""
              · exact ⟨⟨400, bodyMissingQuery⟩,
                  by simp [execute, htr, hl, hstrip], by simp⟩
              · rcases hres : up system_prompt s with e | t
                · cases e with
                  | apiError d =>
                    exact ⟨⟨503, bodyApiError d⟩,
                      by rw [execute_valid_query m up hl hstrip, hres], by simp⟩
                  | attributeError d =>
                    exact ⟨⟨500, bodyInternalError⟩,
                      by rw [execute_valid_query m up hl hstrip, hres], by simp⟩
                  | exception d =>
                    exact ⟨⟨500, bodyInternalError⟩,
                      by rw [execute_valid_query m up hl hstrip, hres], by simp⟩
                · exact ⟨⟨200, bodySuccess t⟩,
                    by rw [execute_valid_query m up hl hstrip, hres], by simp⟩
            | null =>
              exact ⟨⟨400, bodyMissingQuery⟩, by simp [execute, htr, hl], by simp⟩
            | bool b =>
              exact ⟨⟨400, bodyMissingQuery⟩, by simp [execute, htr, hl], by simp⟩
            | num n =>
              exact ⟨⟨400, bodyMissingQuery⟩, by simp [execute, htr, hl], by simp⟩
            | arr es =>
              exact ⟨⟨400, bodyMissingQuery⟩, by simp [execute, htr, hl], by simp⟩
            | obj fs =>
              exact ⟨⟨400, bodyMissingQuery⟩, by simp [execute, htr, hl], by simp⟩

/-- Witness for C8 (amended) at an object body with a non-string query. -/
theorem c8_amended_handler_boundary_witness :
    ∃ r, (execute (some ⟨MODEL_TO_USE⟩) (fun _ _ => .ok "w8")
        (some (.obj [("query", .num 7)]))).outcome = .response r ∧
      (r.status = 200 ∨ r.status = 400 ∨ r.status = 500 ∨ r.status = 503) :=
  c8_amended_handler_boundary (some ⟨MODEL_TO_USE⟩) (fun _ _ => .ok "w8")
    (some (.obj [("query", .num 7)]))
    (fun data hd => by cases hd; exact Or.inr ⟨_, rfl⟩)

/-- Startup produces either no handle or the fixed default handle. -/
theorem initModel_none_or_default (k : Option String)
    (c : String → Except PyError Unit) :
    initModel k c = none ∨ initModel k c = some ⟨MODEL_TO_USE⟩ := by
  cases k with
  | none => exact Or.inl rfl
  | some s =>
    by_cases hs : s = ""
    · simp [initModel, hs]
    · rcases hc : c s with e | u <;> simp [initModel, hs, hc]

/-- Two startups that agree on usability produce the same handle. -/
theorem initModel_eq_of_usable_eq {k1 k2 : Option String}
    {c1 c2 : String → Except PyError Unit}
    (h : (initModel k1 c1).isSome = (initModel k2 c2).isSome) :
    initModel k1 c1 = initModel k2 c2 := by
  rcases initModel_none_or_default k1 c1 with h1 | h1 <;>
    rcases initModel_none_or_default k2 c2 with h2 | h2
  · rw [h1, h2]
  · rw [h1, h2] at h; simp at h
  · rw [h1, h2] at h; simp at h
  · rw [h1, h2]

/-- On a request that never reaches the Query Executor (`execCalls = []`),
the result of `execute` does not depend on the upstream oracle, and it is
either the escaped `AttributeError` or a response whose body is one of the
three fixed constants (not-initialized, invalid payload, missing query). -/
theorem execute_noExecCalls (m : Option Handle) (up up2 : Upstream)
    (body : Option Json)
    (h : (execute m up body).execCalls = []) :
    execute m up body = execute m up2 body ∧
    ((execute m up body).outcome =
        .escaped (.attributeError "object has no attribute get") ∨
      ∃ r, (execute m up body).outcome = .response r ∧
        (r.body = bodyNotInitialized ∨ r.body = bodyInvalidJson ∨
          r.body = bodyMissingQuery)) := by
  cases m with
  | none => exact ⟨rfl, Or.inr ⟨⟨503, bodyNotInitialized⟩, rfl, Or.inl rfl⟩⟩
  | some m =>
    cases body with
    | none =>
      exact ⟨rfl, Or.inr ⟨⟨400, bodyInvalidJson⟩, rfl, Or.inr (Or.inl rfl)⟩⟩
    | some data =>
      by_cases ht : data.truthy = false
      · refine ⟨?_, Or.inr ⟨⟨400, bodyInvalidJson⟩, ?_, Or.inr (Or.inl rfl)⟩⟩ <;>
          simp [execute, ht]
      · have htr : data.truthy = true := by
          revert ht; cases data.truthy <;> simp
        cases data with
        | null => exact absurd rfl ht
        | bool b =>
          cases b with
          | false => exact absurd rfl ht
          | true => exact ⟨rfl, Or.inl rfl⟩
        | num n => refine ⟨?_, Or.inl ?_⟩ <;> simp [execute, htr]
        | str s => refine ⟨?_, Or.inl ?_⟩ <;> simp [execute, htr]
        | arr es => refine ⟨?_, Or.inl ?_⟩ <;> simp [execute, htr]
        | obj fields =>
          rcases hl : fields.lookup "query" with _ | v
          · refine ⟨?_,
              Or.inr ⟨⟨400, bodyMissingQuery⟩, ?_, Or.inr (Or.inr rfl)⟩⟩ <;>
              simp [execute, htr, hl]
          · cases v with
            | str s =>
              by_cases hstrip : pyStrip s = ""
              · refine ⟨?_,
                  Or.inr ⟨⟨400, bodyMissingQuery⟩, ?_, Or.inr (Or.inr rfl)⟩⟩ <;>
                  simp [execute, htr, hl, hstrip]
              · exfalso
                rw [execute_valid_query m up hl hstrip] at h
                rcases hres : up system_prompt s with e | t
                · rw [hres] at h; cases e <;> simp at h
                · rw [hres] at h; simp at h
            | null =>
              refine ⟨?_,
                Or.inr ⟨⟨400, bodyMissingQuery⟩, ?_, Or.inr (Or.inr rfl)⟩⟩ <;>
                simp [execute, htr, hl]
            | bool b =>
              refine ⟨?_,
                Or.inr ⟨⟨400, bodyMissingQuery⟩, ?_, Or.inr (Or.inr rfl)⟩⟩ <;>
                simp [execute, htr, hl]
            | num n =>
              refine ⟨?_,
                Or.inr ⟨⟨400, bodyMissingQuery⟩, ?_, Or.inr (Or.inr rfl)⟩⟩ <;>
                simp [execute, htr, hl]
            | arr es =>
              refine ⟨?_,
                Or.inr ⟨⟨400, bodyMissingQuery⟩, ?_, Or.inr (Or.inr rfl)⟩⟩ <;>
                simp [execute, htr, hl]
            | obj fs =>
              refine ⟨?_,
                Or.inr ⟨⟨400, bodyMissingQuery⟩, ?_, Or.inr (Or.inr rfl)⟩⟩ <;>
                simp [execute, htr, hl]

/-- C9: noninterference of the `GOOGLE_API_KEY` secret.  Two startup
configurations that agree on whether the handle is usable give identical
`/check` responses and identical `/api/execute` results on every request
that never reaches the Query Executor; moreover, on those paths the
response body is one of three fixed constant strings (so the key value,
which the bodies are not built from, never flows into a response). -/
theorem c9_key_noninterference (k1 k2 : Option String)
    (c1 c2 : String → Except PyError Unit) (up1 up2 : Upstream)
    (body : Option Json)
    (husable : (initModel k1 c1).isSome = (initModel k2 c2).isSome)
    (hpath : (execute (initModel k1 c1) up1 body).execCalls = []) :
    check (initModel k1 c1) = check (initModel k2 c2) ∧
    execute (initModel k1 c1) up1 body = execute (initModel k2 c2) up2 body ∧
    ((execute (initModel k1 c1) up1 body).outcome =
        .escaped (.attributeError "object has no attribute get") ∨
      ∃ r, (execute (initModel k1 c1) up1 body).outcome = .response r ∧
        (r.body = bodyNotInitialized ∨ r.body = bodyInvalidJson ∨
          r.body = bodyMissingQuery)) := by
  have hm := initModel_eq_of_usable_eq husable
  obtain ⟨hup, hcls⟩ :=
    execute_noExecCalls (initModel k1 c1) up1 up2 body hpath
  refine ⟨by rw [hm], ?_, hcls⟩
  rw [hup, hm]

/-- Witness for C9: two different keys, different upstream oracles, and a
missing-query request body. -/
theorem c9_key_noninterference_witness :
    check (initModel (some "keyA") (fun _ => .ok ())) =
      check (initModel (some "keyB") (fun _ => .ok ())) ∧
    execute (initModel (some "keyA") (fun _ => .ok ()))
        (fun _ _ => .ok "w9a") (some (.obj [("other", .num 1)])) =
      execute (initModel (some "keyB") (fun _ => .ok ()))
        (fun _ _ => .ok "w9b") (some (.obj [("other", .num 1)])) ∧
    ((execute (initModel (some "keyA") (fun _ => .ok ()))
        (fun _ _ => .ok "w9a") (some (.obj [("other", .num 1)]))).outcome =
        .escaped (.attributeError "object has no attribute get") ∨
      ∃ r, (execute (initModel (some "keyA") (fun _ => .ok ()))
          (fun _ _ => .ok "w9a") (some (.obj [("other", .num 1)]))).outcome =
          .response r ∧
        (r.body = bodyNotInitialized ∨ r.body = bodyInvalidJson ∨
          r.body = bodyMissingQuery)) :=
  c9_key_noninterference (some "keyA") (some "keyB") (fun _ => .ok ())
    (fun _ => .ok ()) (fun _ _ => .ok "w9a") (fun _ _ => .ok "w9b")
    (some (.obj [("other", .num 1)])) rfl rfl

/-- C10: a query string that survives validation (non-blank after
stripping) but carries surrounding whitespace is passed to the Query
Executor and on to the AI client exactly as received — stripping is used
only in the validation test, never applied to the forwarded string. -/
theorem c10_untrimmed_forwarding (m : Handle) (up : Upstream)
    (fields : List (String × Json)) (s : String)
    (hq : fields.lookup "query" = some (Json.str s))
    (hs : pyStrip s ≠ "") (_hws : pyStrip s ≠ s) :
    (execute (some m) up (some (.obj fields))).execCalls = [s] ∧
    (execute (some m) up (some (.obj fields))).netCalls =
      [(system_prompt, s)] := by
  rw [execute_valid_query m up hq hs]
  rcases up system_prompt s with e | t
  · cases e <;> exact ⟨rfl, rfl⟩
  · exact ⟨rfl, rfl⟩

/-- Witness for C10 at the query `" hi "` (whitespace kept end to end). -/
theorem c10_untrimmed_forwarding_witness :
    (execute (some ⟨MODEL_TO_USE⟩) (fun _ _ => .ok "w10")
        (some (.obj [("query", .str " hi ")]))).execCalls = [" hi "] ∧
    (execute (some ⟨MODEL_TO_USE⟩) (fun _ _ => .ok "w10")
        (some (.obj [("query", .str " hi ")]))).netCalls =
      [(system_prompt, " hi ")] :=
  c10_untrimmed_forwarding ⟨MODEL_TO_USE⟩ (fun _ _ => .ok "w10")
    [("query", .str " hi ")] " hi " rfl (by decide) (by decide)

end BudgetBuddy